import Mathlib

/-!
# Verification of the super-auto-boiz core

Shallow embedding of the event-driven battle/shop engine:
`src/system.py`, `src/boi.py`, `src/effect.py`, `src/team.py`,
`src/team_system.py`, `src/battle_system.py`, `src/shop_system.py`.

Python object identity is modelled by a numeric `id` field (the `uuid`
attribute); a Python object reference is represented by its id, and list
membership tests (`boi in team.bois`, which use default object identity)
become id lookups.  Python's unbounded integers are `Int` where a value can
go negative (stats, money, level, experience) and `Nat` for list positions.
-/

namespace SAB

/-! ## Constants (`boi.py`, `team.py`, `shop_system.py` defaults) -/

def MAX_BOI_LEVEL : Int := 3

def LEVEL_UP_EXPERIENCE : Int := 3

def MAX_HEALTH : Int := 50

def MAX_ATTACK : Int := 50

def MAX_TEAM_SIZE : Nat := 5

/-! ## Effects (`effect.py`)

Effect trigger callbacks are game content supplied by packs/demos; the
callbacks occurring in this repository (`shop_demo.py`, `battle_demo.py`)
either buff the target's stats or send a `death` event for the target
(`Pill`).  They form the closed universe of effect behaviours here. -/

inductive EffectKind where
  | buffStats (da dh : Int) : EffectKind
  | killTarget : EffectKind
deriving Repr, DecidableEq

/-- An `Effect` (`effect.py`): id plus event-type-indexed trigger callbacks. -/
structure Effect where
  id : Nat
  triggers : List (String × EffectKind)
deriving Repr, DecidableEq

/-! ## Bois (`boi.py`)

Every Boi built through `BoiBuilder` carries the three standard triggers
(`damage` / `levelup` / `item_used`); dispatch is hard-wired to those
standard callbacks.  The `team` / `team_pos` fields are the positional
cache assigned by `BattleSystem.__init__` (Python assigns them as dynamic
attributes; the shop never reads them). -/

structure Boi where
  id : Nat
  type_name : String
  attack : Int
  health : Int
  level : Int
  experience : Int
  effect : Option Effect
  team : Nat
  team_pos : Nat
deriving Repr, DecidableEq

/-! ## Events (`system.py`)

A Python `Event` is a type tag plus arbitrary keyword payload.  The payload
keys actually used in this repository are modelled as optional fields; a
constructed event sets exactly the keys the corresponding source line
passes (`none` = key absent).  `target_pos` models the `target_boi=(team,
pos)` pairs used by `battle_system.py`; `item_data` carries the full item
record (Python passes the object reference). -/

structure Item where
  id : Nat
  name : String
  price : Int
  effect_triggers : List (String × EffectKind)
deriving Repr, DecidableEq

structure Event where
  type : String
  target : Option Nat
  source : Option Nat
  damage : Option Int
  boi : Option Nat
  item : Option Nat
  target_boi : Option Nat
  source_boi : Option Nat
  bought : Option Nat
  boi1 : Option Nat
  boi2 : Option Nat
  item_data : Option Item
  target_pos : Option (Nat × Nat)
deriving Repr, DecidableEq

/-- An event with only its type tag set (no payload keys). -/
def Event.base (t : String) : Event :=
  ⟨t, none, none, none, none, none, none, none, none, none, none, none, none⟩

/-! ## List helpers for identity-based membership -/

/-- `boi in bois` (Python identity membership). -/
def containsBoi (l : List Boi) (i : Nat) : Bool :=
  l.any (fun b => b.id == i)

/-- Resolve an object reference: the list entry with the given id. -/
def findBoi (l : List Boi) (i : Nat) : Option Boi :=
  l.find? (fun b => b.id == i)

/-- `bois.remove(boi)`: delete the first entry with the given identity. -/
def removeFirstBoi : List Boi → Nat → List Boi
  | [], _ => []
  | b :: bs, i => if b.id == i then bs else b :: removeFirstBoi bs i

/-- Write back an in-place mutation of the object with the given identity. -/
def updateBoi : List Boi → Nat → Boi → List Boi
  | [], _, _ => []
  | b :: bs, i, nb => if b.id == i then nb :: bs else b :: updateBoi bs i nb

/-- `bois.index(boi)` (first position of the object). -/
def idxOfBoi (l : List Boi) (i : Nat) : Nat :=
  l.findIdx (fun b => b.id == i)

/-! ## TeamSystem (`team_system.py`) -/

/-- `TeamSystem.boi_team`: index of the first team containing the boi. -/
def boi_team (teams : List (List Boi)) (i : Nat) : Option Nat :=
  teams.findIdx? (fun t => containsBoi t i)

/-- `TeamSystem.other_team`: with exactly two teams, the team not containing
the boi (`assert` failure — modelled as `none` — if no team contains it);
with any other number of teams, a fresh empty team. -/
def other_team (teams : List (List Boi)) (i : Nat) : Option (List Boi) :=
  if teams.length ≠ 2 then
    some []
  else
    match boi_team teams i with
    | none => none
    | some t => some (teams.getD (1 - t) [])

/-- `TeamSystem._remove_boi`: delete the boi from the first team containing
it (`break` afterwards); a silent no-op when no team contains it. -/
def remove_boi : List (List Boi) → Nat → List (List Boi)
  | [], _ => []
  | t :: ts, i =>
      if containsBoi t i then removeFirstBoi t i :: ts
      else t :: remove_boi ts i

/-! ## BattleSystem (`battle_system.py`) -/

/-- `Boi._sort_tuple`: `(attack, health, uuid)`.  The uuid string is
order-embedded as the numeric id. -/
def sort_tuple (b : Boi) : Int × Int × Nat :=
  (b.attack, b.health, b.id)

/-- Python lexicographic comparison of `(attack, health, uuid)` tuples. -/
def tupleLt (x y : Int × Int × Nat) : Bool :=
  x.1 < y.1 || (x.1 == y.1 && (x.2.1 < y.2.1 || (x.2.1 == y.2.1 && x.2.2 < y.2.2)))

/-- `Boi.__lt__`: `self._sort_tuple() > other._sort_tuple()` — the initiative
comparator puts higher attack, then higher health, then higher id first. -/
def boiLt (a b : Boi) : Bool :=
  tupleLt (sort_tuple b) (sort_tuple a)

/-- Python's stable `sorted` on a two-element list under `Boi.__lt__`. -/
def sortedPair (a b : Boi) : List Boi :=
  if boiLt b a then [b, a] else [a, b]

/-- The three events `run_turn` emits for one attacker: `attack` targeting
the attacker, `attacked` targeting position 0 of the other team, and
`damage` (payload: `damage` only — no `source` key) targeting the opposing
front at the time of computation. -/
def attackEventsFor (attacker other_boi : Boi) : List Event :=
  [ { Event.base "attack" with target_pos := some (attacker.team, attacker.team_pos) },
    { Event.base "attacked" with target_pos := some (1 - attacker.team, 0) },
    { Event.base "damage" with
        target_pos := some (other_boi.team, other_boi.team_pos),
        damage := some attacker.attack } ]

/-- The attack phase of `BattleSystem.run_turn`: sort the two fronts by the
initiative comparator, then emit the three events for each, the opposing
front being looked up per attacker (no removals happen during the loop, so
the fronts do not change). -/
def attackPhaseEvents (front0 front1 : Boi) : List Event :=
  (sortedPair front0 front1).flatMap fun b =>
    attackEventsFor b (if 1 - b.team = 0 then front0 else front1)

/-- The end-of-turn battle-over check of `BattleSystem.run_turn` (lines
110–119), as a function of the two team sizes; result = (`battle_over`,
`winner`).  Note the second emptiness test is `if`, not `elif`. -/
def battle_over_check (n0 n1 : Nat) : Bool × Option Nat :=
  let st : Bool × Option Nat := (false, none)
  let st := if n0 = 0 ∧ n1 = 0 then (true, none) else st
  if n0 = 0 then (true, some 1)
  else if n1 = 0 then (true, some 0)
  else st

/-- `standard_damage_callback` (`boi.py`): subtract the damage; if the boi
is then dead, send `death` (target = self, source = the damage source) and
`killed` (target = the source, source = self). -/
def standard_damage_callback (b : Boi) (dmg : Int) (src : Nat) : Boi × List Event :=
  let b2 := { b with health := b.health - dmg }
  if b2.health ≤ 0 then
    (b2, [ { Event.base "death" with target := some b.id, source := some src },
           { Event.base "killed" with target := some src, source := some b.id } ])
  else
    (b2, [])

/-! ## Pack (`pack.py` as consumed by `shop_system.py`)

`ShopSystem._free_roll` reads `pack.tiers[i].boi_builders`,
`.item_builders`, `.shop_num_bois` and `.shop_num_items`; a builder's
`build()` deep-copies the template and assigns a fresh uuid, modelled by a
template record plus an id counter. -/

structure BoiTemplate where
  type_name : String
  attack : Int
  health : Int
deriving Repr, DecidableEq

structure ItemTemplate where
  name : String
  price : Int
  effect_triggers : List (String × EffectKind)
deriving Repr, DecidableEq

structure TierData where
  boi_builders : List BoiTemplate
  item_builders : List ItemTemplate
  shop_num_bois : Nat
  shop_num_items : Nat
deriving Repr, DecidableEq

structure Pack where
  tiers : List TierData
deriving Repr, DecidableEq

/-- `BoiBuilder.build`: a fresh Boi at level 1, experience 0, with the
standard triggers, carrying the template's name and stats. -/
def BoiTemplate.build (t : BoiTemplate) (i : Nat) : Boi :=
  ⟨i, t.type_name, t.attack, t.health, 1, 0, none, 0, 0⟩

/-- `ItemBuilder`-style construction of an offered item with a fresh id. -/
def ItemTemplate.build (t : ItemTemplate) (i : Nat) : Item :=
  ⟨i, t.name, t.price, t.effect_triggers⟩

def defaultTemplate : BoiTemplate := ⟨"", 0, 0⟩

def defaultBoi : Boi := defaultTemplate.build 0

/-! ## ShopSystem state (`shop_system.py`)

`rng` is the stream of outcomes of `random.choice`: the head is consumed
per sampled slot and reduced modulo the pool size, so every pool element is
reachable and theorems quantify over all streams. -/

structure ShopState where
  team : List Boi
  shop_bois : List Boi
  shop_items : List Item
  frozen_bois : List Boi
  frozen_items : List Item
  money : Int
  queue : List Event
  rng : List Nat
  next_id : Nat
  pack : Pack
  tier : Nat
  roll_price : Int
  boi_price : Int
deriving Repr, DecidableEq

def containsItem (l : List Item) (i : Nat) : Bool :=
  l.any (fun j => j.id == i)

def removeFirstItem : List Item → Nat → List Item
  | [], _ => []
  | j :: js, i => if j.id == i then js else j :: removeFirstItem js i

/-! ## Rolling -/

/-- The sampling loop of `_free_roll`: `n` times, `random.choice(pool)` then
`build()` with a fresh id.  Returns the built bois, the remaining rng
stream and the next fresh id. -/
def sampleBois : Nat → List BoiTemplate → List Nat → Nat → List Boi × List Nat × Nat
  | 0, _, rng, nid => ([], rng, nid)
  | n + 1, pool, rng, nid =>
      let r := rng.headD 0
      let b := (pool.getD (r % pool.length) defaultTemplate).build nid
      let rest := sampleBois n pool rng.tail (nid + 1)
      (b :: rest.1, rest.2.1, rest.2.2)

def defaultItemTemplate : ItemTemplate := ⟨"", 0, []⟩

def sampleItems : Nat → List ItemTemplate → List Nat → Nat → List Item × List Nat × Nat
  | 0, _, rng, nid => ([], rng, nid)
  | n + 1, pool, rng, nid =>
      let r := rng.headD 0
      let j := (pool.getD (r % pool.length) defaultItemTemplate).build nid
      let rest := sampleItems n pool rng.tail (nid + 1)
      (j :: rest.1, rest.2.1, rest.2.2)

/-- The unlocked boi-builder pool: tiers `1 .. self.tier` concatenated. -/
def unlockedBoiBuilders (s : ShopState) : List BoiTemplate :=
  ((s.pack.tiers.take s.tier).map TierData.boi_builders).flatten

def unlockedItemBuilders (s : ShopState) : List ItemTemplate :=
  ((s.pack.tiers.take s.tier).map TierData.item_builders).flatten

/-- `ShopSystem._free_roll`: clear offers, seed with the frozen lists, then
append `min(quota, pool size)` freshly sampled bois and likewise items. -/
def free_roll (s : ShopState) : ShopState :=
  let td := s.pack.tiers.getD (s.tier - 1) ⟨[], [], 0, 0⟩
  let pb := unlockedBoiBuilders s
  let rb := sampleBois (min td.shop_num_bois pb.length) pb s.rng s.next_id
  let pi := unlockedItemBuilders s
  let ri := sampleItems (min td.shop_num_items pi.length) pi rb.2.1 rb.2.2
  { s with shop_bois := s.frozen_bois ++ rb.1,
           shop_items := s.frozen_items ++ ri.1,
           rng := ri.2.1,
           next_id := ri.2.2 }

/-- `ShopSystem.valid_roll`. -/
def valid_roll (s : ShopState) : Bool :=
  decide (s.roll_price ≤ s.money)

/-- `ShopSystem._roll` (paid roll): validate, debit, free roll. -/
def roll_op (s : ShopState) : ShopState × Option String :=
  if valid_roll s then (free_roll { s with money := s.money - s.roll_price }, none)
  else (s, some "Not enough money to roll")

/-! ## Buying, selling, merging, swapping, freezing

Each transaction returns the post-state plus an optional raised error; a
raised error is reported together with the state the Python object would be
left in at the raise site (validation precedes all mutation in every
transaction of `shop_system.py`). -/

def valid_buy_boi (s : ShopState) (bid : Nat) : Bool :=
  containsBoi s.shop_bois bid && decide (s.boi_price ≤ s.money)
    && decide (s.team.length < MAX_TEAM_SIZE)

/-- `ShopSystem._buy_boi`. -/
def buy_boi_op (s : ShopState) (b? : Option Nat) : ShopState × Option String :=
  match b? with
  | none => (s, some "Invalid boi type")
  | some bid =>
      if valid_buy_boi s bid then
        let b := (findBoi s.shop_bois bid).getD defaultBoi
        ({ s with money := s.money - s.boi_price,
                  team := s.team ++ [b],
                  shop_bois := removeFirstBoi s.shop_bois bid,
                  queue := s.queue ++ [{ Event.base "purchased" with target := some bid }] },
         none)
      else (s, some "Invalid boi or not enough money")

def valid_sell_boi (s : ShopState) (bid : Nat) : Bool :=
  containsBoi s.team bid

/-- `ShopSystem._sell_boi`: credit `boi.level`, remove, emit `sold`. -/
def sell_boi_op (s : ShopState) (b? : Option Nat) : ShopState × Option String :=
  match b? with
  | none => (s, some "boi is not even a Boi")
  | some bid =>
      if valid_sell_boi s bid then
        let b := (findBoi s.team bid).getD defaultBoi
        ({ s with money := s.money + b.level,
                  team := removeFirstBoi s.team bid,
                  queue := s.queue ++ [{ Event.base "sold" with target := some bid }] },
         none)
      else (s, some "Invalid boi for selling")

def valid_buy_item (s : ShopState) (it : Item) (tid : Nat) : Bool :=
  containsItem s.shop_items it.id && decide (it.price ≤ s.money)
    && containsBoi s.team tid

/-- `ShopSystem._buy_item`: debit, remove the item from the offers, emit
`item_used` carrying the target and the item object. -/
def buy_item_op (s : ShopState) (it? : Option Item) (t? : Option Nat) :
    ShopState × Option String :=
  match it?, t? with
  | some it, some tid =>
      if valid_buy_item s it tid then
        ({ s with money := s.money - it.price,
                  shop_items := removeFirstItem s.shop_items it.id,
                  queue := s.queue ++
                    [{ Event.base "item_used" with
                        target := some tid, item := some it.id, item_data := some it }] },
         none)
      else (s, some "Invalid item or not enough money")
  | _, _ => (s, some "Invalid item type")

/-- `ShopSystem.valid_merge_boi` on the payload objects. -/
def valid_merge_boi (s : ShopState) (t src : Boi) : Bool :=
  containsBoi s.team t.id && containsBoi s.team src.id
    && (t.type_name == src.type_name)

/-- One structural unfolding of the level-up loop of `_merge_boi`, guarded
by the loop's own condition `experience ≥ LEVEL_UP_EXPERIENCE ∧ level <
MAX_BOI_LEVEL`; the `fuel` argument only bounds the recursion depth (the
guard raises the level every iteration, so `(MAX_BOI_LEVEL − level).toNat`
steps always suffice — `levelupLoopGo_fuel_ge` below certifies that more
fuel never changes the result). -/
def levelupLoopGo : Nat → Int → Int → Nat → Int × Int × List Event
  | 0, e, l, _ => (e, l, [])
  | fuel + 1, e, l, tid =>
      if LEVEL_UP_EXPERIENCE ≤ e ∧ l < MAX_BOI_LEVEL then
        let r := levelupLoopGo fuel (e - LEVEL_UP_EXPERIENCE) (l + 1) tid
        (r.1, r.2.1, { Event.base "levelup" with target := some tid } :: r.2.2)
      else (e, l, [])

/-- The level-up loop of `_merge_boi`: while `experience ≥
LEVEL_UP_EXPERIENCE` and `level < MAX_BOI_LEVEL`, subtract the threshold,
increment the level and send a `levelup` event targeting the boi.  Returns
(final experience, final level, sent events). -/
def levelupLoop (e l : Int) (tid : Nat) : Int × Int × List Event :=
  levelupLoopGo (MAX_BOI_LEVEL - l).toNat e l tid

/-- Any fuel at least `(MAX_BOI_LEVEL − l).toNat` gives the same result:
the chosen fuel never cuts the loop short. -/
theorem levelupLoopGo_fuel_ge : ∀ (fuel fuel2 : Nat) (e l : Int) (tid : Nat),
    (MAX_BOI_LEVEL - l).toNat ≤ fuel → fuel ≤ fuel2 →
    levelupLoopGo fuel e l tid = levelupLoopGo fuel2 e l tid := by
  intro fuel
  induction fuel with
  | zero =>
      intro fuel2 e l tid hf _
      have hl : ¬l < MAX_BOI_LEVEL := by
        simp only [MAX_BOI_LEVEL] at *
        omega
      cases fuel2 with
      | zero => rfl
      | succ n =>
          simp only [levelupLoopGo]
          rw [if_neg (by tauto)]
  | succ n ih =>
      intro fuel2 e l tid hf h2
      cases fuel2 with
      | zero => omega
      | succ m =>
          simp only [levelupLoopGo]
          by_cases hc : LEVEL_UP_EXPERIENCE ≤ e ∧ l < MAX_BOI_LEVEL
          · rw [if_pos hc, if_pos hc,
              ih m (e - LEVEL_UP_EXPERIENCE) (l + 1) tid
                (by simp only [MAX_BOI_LEVEL] at *; omega) (by omega)]
          · rw [if_neg hc, if_neg hc]

/-- `ShopSystem._merge_boi` after payload extraction: add experience, take
`min(MAX, max + 1)` stats, run the level-up loop, zero the remainder at max
level, check `assert target_boi.level <= MAX_BOI_LEVEL` (shop_system.py:296)
and finally remove the source from the team.  A target that ends above the
maximum level — reachable through the levelup double increment — makes the
assert raise after the target has been mutated and the levelup events
queued, but before the source is removed. -/
def merge_boi_core (s : ShopState) (t src : Boi) : ShopState × Option String :=
  if valid_merge_boi s t src then
    let e1 := t.experience + (src.experience + (src.level - 1) * LEVEL_UP_EXPERIENCE + 1)
    let atk1 := min MAX_ATTACK (max t.attack src.attack + 1)
    let hp1 := min MAX_HEALTH (max t.health src.health + 1)
    let r := levelupLoop e1 t.level t.id
    let e2 := if r.2.1 == MAX_BOI_LEVEL then 0 else r.1
    let t1 : Boi := { t with attack := atk1, health := hp1, level := r.2.1, experience := e2 }
    if t1.level ≤ MAX_BOI_LEVEL then
      ({ s with team := removeFirstBoi (updateBoi s.team t.id t1) src.id,
                queue := s.queue ++ r.2.2 },
       none)
    else
      ({ s with team := updateBoi s.team t.id t1, queue := s.queue ++ r.2.2 },
       some "Boi level exceeded maximum")
  else (s, some "Invalid bois for merging")

/-- `merge_boi` intent processing: the event payload carries the two team
objects (resolved here by id — ids are unique in any state Python can
reach, so the payload object and the team entry coincide). -/
def merge_boi_op (s : ShopState) (t? s? : Option Nat) : ShopState × Option String :=
  match t?, s? with
  | some tid, some sid =>
      match findBoi s.team tid, findBoi s.team sid with
      | some t, some src => merge_boi_core s t src
      | _, _ => (s, some "Invalid bois for merging")
  | _, _ => (s, some "Invalid target boi type")

/-- `ShopSystem.valid_buy_and_merge_boi`. -/
def valid_buy_and_merge_boi (s : ShopState) (bought target : Boi) : Bool :=
  containsBoi s.shop_bois bought.id && containsBoi s.team target.id
    && (bought.type_name == target.type_name) && decide (s.boi_price ≤ s.money)

/-- `ShopSystem._buy_and_merge_boi`: validate jointly, debit, move the
bought boi onto the team, then run the merge routine with bought as
source. -/
def buy_and_merge_core (s : ShopState) (bought target : Boi) : ShopState × Option String :=
  if valid_buy_and_merge_boi s bought target then
    let s1 := { s with money := s.money - s.boi_price,
                       shop_bois := removeFirstBoi s.shop_bois bought.id,
                       team := s.team ++ [bought] }
    merge_boi_core s1 target bought
  else (s, some "Invalid bois for buying and merging")

def buy_and_merge_op (s : ShopState) (b? t? : Option Nat) : ShopState × Option String :=
  match b?, t? with
  | some bid, some tid =>
      match findBoi s.shop_bois bid, findBoi s.team tid with
      | some bought, some target => buy_and_merge_core s bought target
      | _, _ => (s, some "Invalid bois for buying and merging")
  | _, _ => (s, some "Invalid bought boi type")

/-- `ShopSystem.valid_swap_boi`: both on the team and distinct objects. -/
def valid_swap_boi (s : ShopState) (b1 b2 : Nat) : Bool :=
  containsBoi s.team b1 && containsBoi s.team b2 && (b1 != b2)

/-- `ShopSystem._swap_boi`: exchange the positions of the two objects. -/
def swap_boi_op (s : ShopState) (b1? b2? : Option Nat) : ShopState × Option String :=
  match b1?, b2? with
  | some b1, some b2 =>
      if valid_swap_boi s b1 b2 then
        let i1 := idxOfBoi s.team b1
        let i2 := idxOfBoi s.team b2
        let x := s.team.getD i1 defaultBoi
        let y := s.team.getD i2 defaultBoi
        ({ s with team := (s.team.set i1 y).set i2 x }, none)
      else (s, some "Invalid bois for swapping")
  | _, _ => (s, some "Invalid first boi type")

def valid_toggle_freeze_boi (s : ShopState) (bid : Nat) : Bool :=
  containsBoi s.shop_bois bid || containsBoi s.frozen_bois bid

/-- `ShopSystem._toggle_freeze_boi`. -/
def toggle_freeze_boi_op (s : ShopState) (b? : Option Nat) : ShopState × Option String :=
  match b? with
  | none => (s, some "Invalid boi type")
  | some bid =>
      if valid_toggle_freeze_boi s bid then
        if containsBoi s.frozen_bois bid then
          ({ s with frozen_bois := removeFirstBoi s.frozen_bois bid }, none)
        else
          ({ s with frozen_bois :=
              s.frozen_bois ++ [(findBoi s.shop_bois bid).getD defaultBoi] }, none)
      else (s, some "Invalid boi for freezing/unfreezing")

def valid_toggle_freeze_item (s : ShopState) (iid : Nat) : Bool :=
  containsItem s.shop_items iid || containsItem s.frozen_items iid

/-- `ShopSystem._toggle_freeze_item`. -/
def toggle_freeze_item_op (s : ShopState) (it? : Option Item) : ShopState × Option String :=
  match it? with
  | none => (s, some "Invalid item type")
  | some it =>
      if valid_toggle_freeze_item s it.id then
        if containsItem s.frozen_items it.id then
          ({ s with frozen_items := removeFirstItem s.frozen_items it.id }, none)
        else
          ({ s with frozen_items := s.frozen_items ++ [it] }, none)
      else (s, some "Invalid item for freezing/unfreezing")

/-! ## Trigger dispatch and the drain loop -/

/-- `Effect.trigger`: run the callbacks registered for the event type in
insertion order.  The buff/kill callbacks act on the event's target, which
is the boi holding the effect whenever an effect fires in the shop. -/
def effectDispatch (ef : Effect) (b : Boi) (evType : String) : Boi × List Event :=
  (ef.triggers.filter (fun p => p.1 == evType)).foldl
    (fun (acc : Boi × List Event) p =>
      match p.2 with
      | .buffStats da dh =>
          ({ acc.1 with attack := acc.1.attack + da, health := acc.1.health + dh }, acc.2)
      | .killTarget =>
          (acc.1, acc.2 ++ [{ Event.base "death" with target := some acc.1.id }]))
    (b, [])

/-- `Boi.trigger`: the boi's own (standard) callbacks for the event type,
then the attached effect's callbacks — including an effect attached by
`standard_item_callback` during this very dispatch.  A raised exception
(third component) stops the dispatch: `standard_damage_callback` raises a
`KeyError` reading an absent `damage` key (before any mutation), or an
absent `source` key once the subtraction has killed the boi (the health
subtraction is kept); `standard_item_callback` raises on an absent `item`
key.  A field set to `none` models the key being absent — no code in this
repository builds a `damage` event whose `source` key holds `None`. -/
def boiTrigger (b : Boi) (ev : Event) : Boi × List Event × Option String :=
  let own : Boi × List Event × Option String :=
    match ev.type with
    | "damage" =>
        match ev.damage with
        | none => (b, [], some "KeyError: damage")
        | some d =>
            if b.health - d ≤ 0 then
              match ev.source with
              | none => ({ b with health := b.health - d }, [], some "KeyError: source")
              | some src =>
                  let r := standard_damage_callback b d src
                  (r.1, r.2, none)
            else ({ b with health := b.health - d }, [], none)
    | "levelup" =>
        ({ b with level := b.level + 1, experience := 0 }, [], none)
    | "item_used" =>
        match ev.item_data with
        | some it => ({ b with effect := some ⟨it.id, it.effect_triggers⟩ }, [], none)
        | none => (b, [], some "KeyError: item")
    | _ => (b, [], none)
  match own.2.2 with
  | some _ => own
  | none =>
      match own.1.effect with
      | some ef =>
          let r := effectDispatch ef own.1 ev.type
          (r.1, own.2.1 ++ r.2, none)
      | none => own

/-- `TeamSystem._handle_target_boi`: if the event names a `target`,
resolve the object and run its trigger dispatch, writing back the mutation
(which in Python happens in place even when the callback then raises) and
queueing any events the callbacks sent; a raised exception is passed on. -/
def handle_target (s : ShopState) (ev : Event) : ShopState × Option String :=
  match ev.target with
  | some i =>
      match findBoi s.team i with
      | some b =>
          let r := boiTrigger b ev
          ({ s with team := updateBoi s.team i r.1, queue := s.queue ++ r.2.1 }, r.2.2)
      | none => (s, none)
  | none => (s, none)

/-- `TeamSystem._handle_death`: on a `death` event, remove the target. -/
def handle_death (s : ShopState) (ev : Event) : ShopState :=
  if ev.type == "death" then
    match ev.target with
    | some i => { s with team := removeFirstBoi s.team i }
    | none => s
  else s

/-- `ShopSystem._process_queue_event`'s `match` on the transaction type. -/
def shop_dispatch (s : ShopState) (ev : Event) : ShopState × Option String :=
  match ev.type with
  | "buy_item" => buy_item_op s ev.item_data ev.target_boi
  | "buy_boi" => buy_boi_op s ev.boi
  | "sell_boi" => sell_boi_op s ev.boi
  | "merge_boi" => merge_boi_op s ev.target_boi ev.source_boi
  | "buy_and_merge_boi" => buy_and_merge_op s ev.bought ev.target
  | "swap_boi" => swap_boi_op s ev.boi1 ev.boi2
  | "roll" => roll_op s
  | "toggle_freeze_item" => toggle_freeze_item_op s ev.item_data
  | "toggle_freeze_boi" => toggle_freeze_boi_op s ev.boi
  | _ => (s, none)

/-- `ShopSystem._process_queue_event`: observer notification (read-only),
then `TeamSystem` target handling (trigger the target, remove it on
`death`), then the shop transaction dispatch; an exception raised by a
trigger callback propagates before the death handling and the dispatch. -/
def process_queue_event (s : ShopState) (ev : Event) : ShopState × Option String :=
  let r := handle_target s ev
  match r.2 with
  | some e => (r.1, some e)
  | none => shop_dispatch (handle_death r.1 ev) ev

/-- `System._process_all_queue_events` with explicit fuel: pop the head,
process it, repeat; a raised error propagates out of the loop leaving the
state as mutated so far (with the failing event already popped). -/
def drainQueue : Nat → ShopState → ShopState
  | 0, s => s
  | fuel + 1, s =>
      match s.queue with
      | [] => s
      | ev :: rest =>
          let r := process_queue_event { s with queue := rest } ev
          match r.2 with
          | none => drainQueue fuel r.1
          | some _ => r.1

/-- One public shop operation as driven by `shop_demo.py` / `shop_ui.py`:
`send_event(intent)` followed by `_process_all_queue_events()`. -/
def runShopEvent (fuel : Nat) (s : ShopState) (ev : Event) : ShopState :=
  drainQueue fuel { s with queue := s.queue ++ [ev] }

def runShopEvents (fuel : Nat) (s : ShopState) (evs : List Event) : ShopState :=
  evs.foldl (runShopEvent fuel) s

/-! ## Basic list-helper lemmas -/

theorem containsBoi_iff {l : List Boi} {i : Nat} :
    containsBoi l i = true ↔ ∃ b ∈ l, b.id = i := by
  simp [containsBoi]

theorem containsBoi_append_right {l : List Boi} {b : Boi} :
    containsBoi (l ++ [b]) b.id = true := by
  simp [containsBoi]

theorem containsBoi_append_of {l l2 : List Boi} {i : Nat}
    (h : containsBoi l i = true) : containsBoi (l ++ l2) i = true := by
  simp only [containsBoi, List.any_append, Bool.or_eq_true]
  exact Or.inl h

theorem removeFirstBoi_length_le : ∀ (l : List Boi) (i : Nat),
    (removeFirstBoi l i).length ≤ l.length := by
  intro l i
  induction l with
  | nil => simp [removeFirstBoi]
  | cons b bs ih =>
      by_cases h : b.id = i
      · simp [removeFirstBoi, h]
      · simp only [removeFirstBoi, beq_iff_eq, if_neg h, List.length_cons]
        omega

theorem removeFirstBoi_length {l : List Boi} {i : Nat}
    (h : containsBoi l i = true) :
    (removeFirstBoi l i).length + 1 = l.length := by
  induction l with
  | nil => simp [containsBoi] at h
  | cons b bs ih =>
      by_cases hb : b.id = i
      · simp [removeFirstBoi, hb]
      · simp only [containsBoi, List.any_cons, Bool.or_eq_true, beq_iff_eq] at h
        rcases h with h | h
        · exact absurd h hb
        · simp only [removeFirstBoi, beq_iff_eq, if_neg hb, List.length_cons]
          rw [← ih h]

theorem removeFirstBoi_subset : ∀ (l : List Boi) (i : Nat) (b : Boi),
    b ∈ removeFirstBoi l i → b ∈ l := by
  intro l i
  induction l with
  | nil => simp [removeFirstBoi]
  | cons x xs ih =>
      intro b hb
      by_cases hx : x.id = i
      · simp only [removeFirstBoi, beq_iff_eq, if_pos hx] at hb
        exact List.mem_cons_of_mem _ hb
      · simp only [removeFirstBoi, beq_iff_eq, if_neg hx, List.mem_cons] at hb
        rcases hb with hb | hb
        · exact hb ▸ List.mem_cons_self _ _
        · exact List.mem_cons_of_mem _ (ih b hb)

theorem updateBoi_length : ∀ (l : List Boi) (i : Nat) (nb : Boi),
    (updateBoi l i nb).length = l.length := by
  intro l i nb
  induction l with
  | nil => rfl
  | cons b bs ih =>
      by_cases h : b.id = i <;> simp [updateBoi, h, ih]

theorem updateBoi_map_id : ∀ (l : List Boi) (i : Nat) (nb : Boi), nb.id = i →
    (updateBoi l i nb).map Boi.id = l.map Boi.id := by
  intro l i nb hnb
  induction l with
  | nil => rfl
  | cons b bs ih =>
      by_cases h : b.id = i
      · simp [updateBoi, h, hnb]
      · simp [updateBoi, h, ih]

theorem containsBoi_eq_mem_map {l : List Boi} {i : Nat} :
    containsBoi l i = (decide (i ∈ l.map Boi.id)) := by
  by_cases h : i ∈ l.map Boi.id
  · rw [decide_eq_true h, containsBoi_iff]
    simpa [List.mem_map] using h
  · rw [decide_eq_false h, ← Bool.not_eq_true, containsBoi_iff]
    simpa [List.mem_map] using h

theorem containsBoi_updateBoi {l : List Boi} {i j : Nat} {nb : Boi}
    (hnb : nb.id = i) : containsBoi (updateBoi l i nb) j = containsBoi l j := by
  rw [containsBoi_eq_mem_map, containsBoi_eq_mem_map, updateBoi_map_id l i nb hnb]

theorem not_containsBoi_removeFirst_of_nodup {l : List Boi} {i : Nat}
    (hnd : (l.map Boi.id).Nodup) :
    containsBoi (removeFirstBoi l i) i = false := by
  induction l with
  | nil => simp [removeFirstBoi, containsBoi]
  | cons b bs ih =>
      simp only [List.map_cons, List.nodup_cons] at hnd
      by_cases h : b.id = i
      · simp only [removeFirstBoi, beq_iff_eq, if_pos h]
        rw [containsBoi_eq_mem_map]
        simp only [decide_eq_false_iff_not]
        rw [← h]
        exact hnd.1
      · simp only [removeFirstBoi, beq_iff_eq, if_neg h, containsBoi, List.any_cons,
          Bool.or_eq_false_iff, beq_iff_eq]
        refine ⟨by simp [h], ih hnd.2⟩

/-! ## Claim C1 — end-of-turn battle-over check -/

/-- C1 (code bug): the claim — and the first branch of the code itself —
say a turn ending with both teams empty records a Draw (`winner = None`),
but the second emptiness test at `battle_system.py:114` is `if` rather than
`elif`, so it overwrites the Draw: with both teams empty the recorded
result is `battle_over = True, winner = 1` (team B), not a Draw. -/
theorem c1_both_empty_records_team1 :
    battle_over_check 0 0 = (true, some 1) := rfl

/-! ## Claim C10 — `TeamSystem.other_team` -/

/-- C10: with exactly two teams, `other_team` returns the team not
containing the combatant for a member of exactly one team; for a combatant
in neither team the internal `assert team_number is not None` fails
(result `none`); with any number of teams other than two it returns a
fresh empty team without examining the argument. -/
theorem c10_other_team_spec (t0 t1 : List Boi) (i : Nat) :
    (containsBoi t0 i = true → other_team [t0, t1] i = some t1) ∧
    (containsBoi t0 i = false → containsBoi t1 i = true → other_team [t0, t1] i = some t0) ∧
    (containsBoi t0 i = false → containsBoi t1 i = false → other_team [t0, t1] i = none) ∧
    (∀ teams : List (List Boi), teams.length ≠ 2 → other_team teams i = some []) := by
  refine ⟨?_, ?_, ?_, ?_⟩
  · intro h0
    simp [other_team, boi_team, List.findIdx?_cons, h0]
  · intro h0 h1
    simp [other_team, boi_team, List.findIdx?_cons, h0, h1]
  · intro h0 h1
    simp [other_team, boi_team, List.findIdx?_cons, h0, h1]
  · intro teams h
    simp [other_team, h]

/-- Witness for C10: a member of team 0 gets team 1 back. -/
theorem c10_other_team_witness :
    other_team [[defaultTemplate.build 3], [defaultTemplate.build 4]] 3
      = some [defaultTemplate.build 4] :=
  (c10_other_team_spec [defaultTemplate.build 3] [defaultTemplate.build 4] 3).1 (by decide)

/-! ## Claim C7 — `TeamSystem._remove_boi` -/

/-- C7 (counterexample): removing an absent combatant does NOT fail — the
loop in `_remove_boi` simply finds no team containing it and returns,
leaving every team unchanged (the function body contains no raise).  And a
successful removal performs no renumbering: after removing the front boi,
the surviving boi's cached `team_pos` is still `1`. -/
theorem c7_remove_counterexample :
    (remove_boi [[defaultTemplate.build 0]] 5 = [[defaultTemplate.build 0]]) ∧
    (remove_boi [[{ defaultTemplate.build 0 with team_pos := 0 },
                  { defaultTemplate.build 1 with team_pos := 1 }]] 0
        = [[{ defaultTemplate.build 1 with team_pos := 1 }]]) :=
  ⟨rfl, rfl⟩

/-- C7 (amended): `_remove_boi` deletes the first entry with the given
identity from the first team containing it (stopping there), leaves every
surviving entry — including its stale `team_pos` cache — untouched, and is
a silent no-op (no error) when no team contains the combatant. -/
theorem c7_remove_boi_amended (teams : List (List Boi)) (t : List Boi)
    (ts : List (List Boi)) (i : Nat) :
    ((∀ u ∈ teams, containsBoi u i = false) → remove_boi teams i = teams) ∧
    (containsBoi t i = true → remove_boi (t :: ts) i = removeFirstBoi t i :: ts) ∧
    (containsBoi t i = false → remove_boi (t :: ts) i = t :: remove_boi ts i) ∧
    (∀ b ∈ removeFirstBoi t i, b ∈ t) := by
  refine ⟨?_, ?_, ?_, removeFirstBoi_subset t i⟩
  · induction teams with
    | nil => intro _; rfl
    | cons u us ih =>
        intro h
        have hu : containsBoi u i = false := h u (List.mem_cons_self _ _)
        have hrest := ih fun v hv => h v (List.mem_cons_of_mem _ hv)
        simp [remove_boi, hu, hrest]
  · intro h
    simp [remove_boi, h]
  · intro h
    simp [remove_boi, h]

/-- Witness for C7's amended statement: absent id 5 → silent no-op. -/
theorem c7_remove_boi_witness :
    remove_boi [[defaultTemplate.build 1]] 5 = [[defaultTemplate.build 1]] :=
  (c7_remove_boi_amended [[defaultTemplate.build 1]] [] [] 5).1 (by decide)

/-! ## Claim C4 — validate-then-commit for shop transactions -/

/-- C4: each failing precondition of `_buy_boi` (insufficient funds, boi
not offered, team at capacity) raises with no state mutated, and a paid
roll with insufficient funds raises with no state mutated: the returned
state is exactly the input state in every case. -/
theorem c4_validate_then_commit (s : ShopState) (bid : Nat) :
    (s.money < s.boi_price →
        buy_boi_op s (some bid) = (s, some "Invalid boi or not enough money")) ∧
    (containsBoi s.shop_bois bid = false →
        buy_boi_op s (some bid) = (s, some "Invalid boi or not enough money")) ∧
    (MAX_TEAM_SIZE ≤ s.team.length →
        buy_boi_op s (some bid) = (s, some "Invalid boi or not enough money")) ∧
    (s.money < s.roll_price → roll_op s = (s, some "Not enough money to roll")) := by
  refine ⟨?_, ?_, ?_, ?_⟩
  · intro h
    have hv : valid_buy_boi s bid = false := by
      simp only [valid_buy_boi, Bool.and_eq_false_iff, decide_eq_false_iff_not, not_le]
      left; right; exact h
    simp [buy_boi_op, hv]
  · intro h
    have hv : valid_buy_boi s bid = false := by
      simp only [valid_buy_boi, Bool.and_eq_false_iff]
      left; left; exact h
    simp [buy_boi_op, hv]
  · intro h
    have hv : valid_buy_boi s bid = false := by
      simp only [valid_buy_boi, Bool.and_eq_false_iff, decide_eq_false_iff_not, not_lt]
      right; exact h
    simp [buy_boi_op, hv]
  · intro h
    have hv : valid_roll s = false := by
      simp only [valid_roll, decide_eq_false_iff_not, not_le]
      exact h
    simp [roll_op, hv]

/-- A concrete shop in the spec's insufficient-funds scenario: `money = 0`,
one offered boi at the default price 3. -/
def c4shop : ShopState :=
  { team := [], shop_bois := [defaultTemplate.build 1], shop_items := [],
    frozen_bois := [], frozen_items := [], money := 0, queue := [], rng := [],
    next_id := 2, pack := ⟨[⟨[defaultTemplate], [], 3, 2⟩]⟩, tier := 1,
    roll_price := 1, boi_price := 3 }

/-- Witness for C4: buying with `money = 0` against price 3 raises and
returns the untouched state; a paid roll with `money = 0` likewise. -/
theorem c4_validate_then_commit_witness :
    buy_boi_op c4shop (some 1) = (c4shop, some "Invalid boi or not enough money") ∧
    roll_op c4shop = (c4shop, some "Not enough money to roll") :=
  ⟨(c4_validate_then_commit c4shop 1).1 (by decide),
   (c4_validate_then_commit c4shop 1).2.2.2 (by decide)⟩

/-! ## Claim C2 — the merge routine -/

/-- Specification-side closed form: the experience a merge adds to the
target. -/
def spec_merge_gain (src : Boi) : Int :=
  src.experience + (src.level - 1) * LEVEL_UP_EXPERIENCE + 1

/-- Specification-side closed form of the target's level after the
level-up loop. -/
def spec_merge_level (t src : Boi) : Int :=
  min MAX_BOI_LEVEL (t.level + (t.experience + spec_merge_gain src) / LEVEL_UP_EXPERIENCE)

/-- Specification-side closed form of the target's experience after the
loop and the max-level reset. -/
def spec_merge_exp (t src : Boi) : Int :=
  if spec_merge_level t src = MAX_BOI_LEVEL then 0
  else t.experience + spec_merge_gain src
        - LEVEL_UP_EXPERIENCE * (spec_merge_level t src - t.level)

/-- Specification-side description of the merged target. -/
def spec_merged_boi (t src : Boi) : Boi :=
  { t with attack := min MAX_ATTACK (max t.attack src.attack + 1),
           health := min MAX_HEALTH (max t.health src.health + 1),
           level := spec_merge_level t src,
           experience := spec_merge_exp t src }

theorem levelupLoopGo_spec : ∀ (fuel : Nat) (e l : Int) (tid : Nat),
    0 ≤ e → l ≤ MAX_BOI_LEVEL → (MAX_BOI_LEVEL - l).toNat ≤ fuel →
    levelupLoopGo fuel e l tid =
      (e - LEVEL_UP_EXPERIENCE * (min MAX_BOI_LEVEL (l + e / LEVEL_UP_EXPERIENCE) - l),
       min MAX_BOI_LEVEL (l + e / LEVEL_UP_EXPERIENCE),
       List.replicate (min MAX_BOI_LEVEL (l + e / LEVEL_UP_EXPERIENCE) - l).toNat
         { Event.base "levelup" with target := some tid }) := by
  intro fuel
  induction fuel with
  | zero =>
      intro e l tid he hl hf
      simp only [levelupLoopGo, MAX_BOI_LEVEL, LEVEL_UP_EXPERIENCE] at *
      simp only [Prod.mk.injEq]
      have hz : (min 3 (l + e / 3) - l).toNat = 0 := by omega
      refine ⟨by omega, by omega, by simp [hz]⟩
  | succ n ih =>
      intro e l tid he hl hf
      simp only [levelupLoopGo]
      by_cases hc : LEVEL_UP_EXPERIENCE ≤ e ∧ l < MAX_BOI_LEVEL
      · rw [if_pos hc]
        rw [ih (e - LEVEL_UP_EXPERIENCE) (l + 1) tid
          (by simp only [LEVEL_UP_EXPERIENCE] at *; omega)
          (by simp only [MAX_BOI_LEVEL] at *; omega)
          (by simp only [MAX_BOI_LEVEL] at *; omega)]
        simp only [MAX_BOI_LEVEL, LEVEL_UP_EXPERIENCE] at *
        have hdiv : (e - 3) / 3 = e / 3 - 1 := by omega
        simp only [Prod.mk.injEq]
        refine ⟨by rw [hdiv]; omega, by rw [hdiv]; omega, ?_⟩
        have hcnt : (min 3 (l + e / 3) - l).toNat
            = (min 3 (l + 1 + (e - 3) / 3) - (l + 1)).toNat + 1 := by
          rw [hdiv]; omega
        rw [hcnt, List.replicate_succ]
      · rw [if_neg hc]
        push_neg at hc
        simp only [MAX_BOI_LEVEL, LEVEL_UP_EXPERIENCE] at *
        simp only [Prod.mk.injEq]
        by_cases h3 : 3 ≤ e
        · have := hc h3
          refine ⟨by omega, by omega, ?_⟩
          have hz : (min 3 (l + e / 3) - l).toNat = 0 := by omega
          simp [hz]
        · have hd : e / 3 = 0 := by omega
          refine ⟨by rw [hd]; omega, by rw [hd]; omega, ?_⟩
          have hz : (min 3 (l + e / 3) - l).toNat = 0 := by
            rw [hd]; omega
          simp [hz]

/-- Closed form of the level-up loop of `_merge_boi`. -/
theorem levelupLoop_spec (e l : Int) (tid : Nat) (he : 0 ≤ e) (hl : l ≤ MAX_BOI_LEVEL) :
    levelupLoop e l tid =
      (e - LEVEL_UP_EXPERIENCE * (min MAX_BOI_LEVEL (l + e / LEVEL_UP_EXPERIENCE) - l),
       min MAX_BOI_LEVEL (l + e / LEVEL_UP_EXPERIENCE),
       List.replicate (min MAX_BOI_LEVEL (l + e / LEVEL_UP_EXPERIENCE) - l).toNat
         { Event.base "levelup" with target := some tid }) :=
  levelupLoopGo_spec _ e l tid he hl (Nat.le_refl _)

/-- C2: a valid merge succeeds and produces exactly the spec's result: the
target gains `source.experience + (source.level − 1) × LEVEL_UP_EXPERIENCE
+ 1` experience, its stats become `min(MAX, max(both) + 1)`, the level-up
loop raises the level to the closed-form value emitting one `levelup`
event per level gained, remainder experience resets to 0 at max level, and
the source is removed from the team (money and offers untouched). -/
theorem c2_merge_spec (s : ShopState) (t src : Boi)
    (hv : valid_merge_boi s t src = true)
    (hl3 : t.level ≤ MAX_BOI_LEVEL) (hsl : 1 ≤ src.level)
    (hte : 0 ≤ t.experience) (hse : 0 ≤ src.experience)
    (hnd : (s.team.map Boi.id).Nodup) :
    (merge_boi_core s t src).2 = none ∧
    (merge_boi_core s t src).1.team =
      removeFirstBoi (updateBoi s.team t.id (spec_merged_boi t src)) src.id ∧
    (merge_boi_core s t src).1.queue =
      s.queue ++ List.replicate (spec_merge_level t src - t.level).toNat
        { Event.base "levelup" with target := some t.id } ∧
    (merge_boi_core s t src).1.money = s.money ∧
    (merge_boi_core s t src).1.shop_bois = s.shop_bois ∧
    containsBoi (merge_boi_core s t src).1.team src.id = false ∧
    (merge_boi_core s t src).1.team.length + 1 = s.team.length := by
  have hgain : 0 ≤ t.experience + spec_merge_gain src := by
    simp only [spec_merge_gain, LEVEL_UP_EXPERIENCE]
    omega
  have hloop := levelupLoop_spec (t.experience + spec_merge_gain src) t.level t.id hgain hl3
  have hcore : merge_boi_core s t src =
      ({ s with team := removeFirstBoi (updateBoi s.team t.id (spec_merged_boi t src)) src.id,
                queue := s.queue ++ List.replicate (spec_merge_level t src - t.level).toNat
                  { Event.base "levelup" with target := some t.id } }, none) := by
    rw [merge_boi_core, if_pos hv]
    have harg : t.experience + (src.experience + (src.level - 1) * LEVEL_UP_EXPERIENCE + 1)
        = t.experience + spec_merge_gain src := by
      simp [spec_merge_gain]
    simp only [harg, hloop, spec_merged_boi, spec_merge_level, spec_merge_exp, beq_iff_eq]
    rw [if_pos (min_le_left _ _)]
  have hsrc : containsBoi s.team src.id = true := by
    have := hv
    simp only [valid_merge_boi, Bool.and_eq_true] at this
    exact this.1.2
  have hid : (spec_merged_boi t src).id = t.id := rfl
  have hcontains : containsBoi (updateBoi s.team t.id (spec_merged_boi t src)) src.id = true := by
    rw [containsBoi_updateBoi hid]
    exact hsrc
  have hndup : ((updateBoi s.team t.id (spec_merged_boi t src)).map Boi.id).Nodup := by
    rw [updateBoi_map_id _ _ _ hid]
    exact hnd
  rw [hcore]
  refine ⟨rfl, rfl, rfl, rfl, rfl, ?_, ?_⟩
  · exact not_containsBoi_removeFirst_of_nodup hndup
  · have := removeFirstBoi_length hcontains
    simpa [updateBoi_length] using this

/-- The merge-conservation scenario team: two identical level-1 bois of
the same type with attack 2, health 2, experience 0. -/
def c2shop : ShopState :=
  { team := [⟨1, "x", 2, 2, 1, 0, none, 0, 0⟩, ⟨2, "x", 2, 2, 1, 0, none, 0, 0⟩],
    shop_bois := [], shop_items := [], frozen_bois := [], frozen_items := [],
    money := 10, queue := [], rng := [], next_id := 3,
    pack := ⟨[⟨[defaultTemplate], [], 3, 2⟩]⟩, tier := 1, roll_price := 1, boi_price := 3 }

/-- Witness for C2 — the spec's merge-conservation instance: merging
(atk 2, hp 2, lvl 1, xp 0) into an identical target succeeds and yields a
single survivor with atk 3, hp 3, xp 1, lvl 1, the source gone. -/
theorem c2_merge_witness :
    (merge_boi_core c2shop ⟨1, "x", 2, 2, 1, 0, none, 0, 0⟩ ⟨2, "x", 2, 2, 1, 0, none, 0, 0⟩).2
        = none ∧
    (merge_boi_core c2shop ⟨1, "x", 2, 2, 1, 0, none, 0, 0⟩ ⟨2, "x", 2, 2, 1, 0, none, 0, 0⟩).1.team
        = [⟨1, "x", 3, 3, 1, 1, none, 0, 0⟩] ∧
    containsBoi (merge_boi_core c2shop ⟨1, "x", 2, 2, 1, 0, none, 0, 0⟩
        ⟨2, "x", 2, 2, 1, 0, none, 0, 0⟩).1.team 2 = false := by
  have h := c2_merge_spec c2shop ⟨1, "x", 2, 2, 1, 0, none, 0, 0⟩
    ⟨2, "x", 2, 2, 1, 0, none, 0, 0⟩ (by decide) (by decide) (by decide)
    (by decide) (by decide) (by decide)
  refine ⟨h.1, ?_, h.2.2.2.2.2.1⟩
  rw [h.2.1]
  decide

/-! ## Claim C3 — level invariant after draining levelup events -/

/-- The level-up-boundary scenario: a level-2 target one experience point
below the threshold, plus a fresh same-type source. -/
def c3shop : ShopState :=
  { team := [⟨1, "a", 2, 2, 2, 2, none, 0, 0⟩, ⟨2, "a", 2, 2, 1, 0, none, 0, 0⟩],
    shop_bois := [], shop_items := [], frozen_bois := [], frozen_items := [],
    money := 10, queue := [], rng := [], next_id := 3,
    pack := ⟨[⟨[defaultTemplate], [], 3, 2⟩]⟩, tier := 1, roll_price := 1, boi_price := 3 }

/-- C3 (code bug): merging a same-type source into a level-2 target with
experience `LEVEL_UP_EXPERIENCE − 1` and draining the queue leaves the
target at level 4 with experience 0 — not level 3.  `_merge_boi`'s loop
already increments the level before emitting `levelup`, and
`standard_levelup_callback` increments it again when the event drains, so
the level leaves {1,2,3} (the test suite's `test_levelup_from_merging`
expects the single increment). -/
theorem c3_merge_drain_level4 :
    (runShopEvent 10 c3shop
        { Event.base "merge_boi" with target_boi := some 1, source_boi := some 2 }).team
      = [⟨1, "a", 3, 3, 4, 0, none, 0, 0⟩] := by
  decide

/-! ## Claim C5 — the free roll -/

theorem sampleBois_length : ∀ (n : Nat) (pool : List BoiTemplate) (rng : List Nat) (nid : Nat),
    (sampleBois n pool rng nid).1.length = n := by
  intro n
  induction n with
  | zero => intro pool rng nid; rfl
  | succ m ih => intro pool rng nid; simp [sampleBois, ih]

theorem sampleItems_length : ∀ (n : Nat) (pool : List ItemTemplate) (rng : List Nat) (nid : Nat),
    (sampleItems n pool rng nid).1.length = n := by
  intro n
  induction n with
  | zero => intro pool rng nid; rfl
  | succ m ih => intro pool rng nid; simp [sampleItems, ih]

theorem sampleBois_mem {pool : List BoiTemplate} (hpool : pool ≠ []) :
    ∀ (n : Nat) (rng : List Nat) (nid : Nat) (b : Boi),
    b ∈ (sampleBois n pool rng nid).1 → ∃ tm ∈ pool, ∃ k, b = tm.build k := by
  intro n
  induction n with
  | zero => intro rng nid b hb; simp [sampleBois] at hb
  | succ m ih =>
      intro rng nid b hb
      simp only [sampleBois, List.mem_cons] at hb
      rcases hb with hb | hb
      · have hlen : 0 < pool.length := List.length_pos.mpr hpool
        have hidx : rng.headD 0 % pool.length < pool.length := Nat.mod_lt _ hlen
        refine ⟨pool.getD (rng.headD 0 % pool.length) defaultTemplate, ?_, nid, hb⟩
        rw [List.getD_eq_getElem?_getD, List.getElem?_eq_getElem hidx]
        exact List.getElem_mem hidx
      · exact ih rng.tail (nid + 1) b hb

theorem sampleItems_mem {pool : List ItemTemplate} (hpool : pool ≠ []) :
    ∀ (n : Nat) (rng : List Nat) (nid : Nat) (j : Item),
    j ∈ (sampleItems n pool rng nid).1 → ∃ tm ∈ pool, ∃ k, j = tm.build k := by
  intro n
  induction n with
  | zero => intro rng nid j hj; simp [sampleItems] at hj
  | succ m ih =>
      intro rng nid j hj
      simp only [sampleItems, List.mem_cons] at hj
      rcases hj with hj | hj
      · have hlen : 0 < pool.length := List.length_pos.mpr hpool
        have hidx : rng.headD 0 % pool.length < pool.length := Nat.mod_lt _ hlen
        refine ⟨pool.getD (rng.headD 0 % pool.length) defaultItemTemplate, ?_, nid, hj⟩
        rw [List.getD_eq_getElem?_getD, List.getElem?_eq_getElem hidx]
        exact List.getElem_mem hidx
      · exact ih rng.tail (nid + 1) j hj

/-- A shop one frozen boi, a one-builder pool and a boi quota of 3. -/
def c5shop : ShopState :=
  { team := [], shop_bois := [], shop_items := [],
    frozen_bois := [defaultTemplate.build 0], frozen_items := [], money := 10,
    queue := [], rng := [0, 0, 0, 0, 0, 0], next_id := 1,
    pack := ⟨[⟨[⟨"ant", 2, 1⟩, ⟨"bee", 2, 2⟩, ⟨"cat", 1, 2⟩], [], 3, 0⟩]⟩,
    tier := 1, roll_price := 1, boi_price := 3 }

/-- C5 (counterexample): with one frozen boi and a boi quota of 3
(covering the frozen count), a free roll offers `1 + 3 = 4` bois — the
sampling loop always draws the full quota of fresh bois on top of the
seeded frozen ones instead of filling only the remaining slots, so the
total exceeds the quota. -/
theorem c5_free_roll_counterexample :
    c5shop.frozen_bois.length = 1 ∧
    (c5shop.pack.tiers.getD 0 ⟨[], [], 0, 0⟩).shop_num_bois = 3 ∧
    (free_roll c5shop).shop_bois.length = 4 := by
  refine ⟨rfl, rfl, by decide⟩

/-- C5 (amended): a free roll seeds the offer lists with the frozen lists
(every frozen asset is present unchanged, as a prefix), computes the
unlocked pool as the union of builders/items across tiers `1..tier`, and
then appends `min(quota, pool size)` freshly built assets — the full
quota, regardless of how many slots the frozen assets already occupy — so
the total offered bois is `frozen count + min(quota, pool size)`. -/
theorem c5_free_roll_amended (s : ShopState) :
    ((free_roll s).shop_bois.take s.frozen_bois.length = s.frozen_bois) ∧
    ((free_roll s).shop_bois.length = s.frozen_bois.length +
        min (s.pack.tiers.getD (s.tier - 1) ⟨[], [], 0, 0⟩).shop_num_bois
          (unlockedBoiBuilders s).length) ∧
    (∀ b ∈ (free_roll s).shop_bois.drop s.frozen_bois.length,
        b.level = 1 ∧ b.experience = 0 ∧ b.effect = none ∧
        ∃ tm ∈ unlockedBoiBuilders s, ∃ k, b = tm.build k) ∧
    ((free_roll s).shop_items.take s.frozen_items.length = s.frozen_items) ∧
    ((free_roll s).shop_items.length = s.frozen_items.length +
        min (s.pack.tiers.getD (s.tier - 1) ⟨[], [], 0, 0⟩).shop_num_items
          (unlockedItemBuilders s).length) ∧
    (∀ j ∈ (free_roll s).shop_items.drop s.frozen_items.length,
        ∃ tm ∈ unlockedItemBuilders s, ∃ k, j = tm.build k) ∧
    (free_roll s).team = s.team ∧ (free_roll s).money = s.money ∧
    (free_roll s).frozen_bois = s.frozen_bois ∧
    (free_roll s).frozen_items = s.frozen_items := by
  refine ⟨?_, ?_, ?_, ?_, ?_, ?_, rfl, rfl, rfl, rfl⟩
  · simp [free_roll, List.take_left]
  · simp [free_roll, sampleBois_length]
  · intro b hb
    simp only [free_roll, List.drop_left] at hb
    by_cases hpool : unlockedBoiBuilders s = []
    · rw [hpool] at hb
      simp [sampleBois] at hb
    · obtain ⟨tm, htm, k, hk⟩ := sampleBois_mem hpool _ _ _ b hb
      exact ⟨by rw [hk]; rfl, by rw [hk]; rfl, by rw [hk]; rfl, tm, htm, k, hk⟩
  · simp [free_roll, List.take_left]
  · simp [free_roll, sampleItems_length]
  · intro j hj
    simp only [free_roll, List.drop_left] at hj
    by_cases hpool : unlockedItemBuilders s = []
    · rw [hpool] at hj
      simp [sampleItems] at hj
    · exact sampleItems_mem hpool _ _ _ j hj

/-- Witness for C5's amended statement: the frozen boi is the first offer
after the roll. -/
theorem c5_free_roll_amended_witness :
    (free_roll c5shop).shop_bois.take c5shop.frozen_bois.length = c5shop.frozen_bois :=
  (c5_free_roll_amended c5shop).1

/-! ## Claim C6 — the attack phase emissions -/

/-- The spec's simple-battle fronts: A = (atk 2, hp 1) at team 0 position
0, B = (atk 1, hp 2) at team 1 position 0. -/
def c6front0 : Boi := ⟨10, "a", 2, 1, 1, 0, none, 0, 0⟩

def c6front1 : Boi := ⟨20, "b", 1, 2, 1, 0, none, 1, 0⟩

/-- C6 (counterexample): the attack phase emits three events per front —
`attack`, `attacked` and `damage` — six in total, not the claimed two per
front; and the `damage` payload carries no `source` key at all
(`battle_system.py:92-98` passes only `target_boi` and `damage`). -/
theorem c6_attack_counterexample :
    (attackPhaseEvents c6front0 c6front1).length = 6 ∧
    (attackPhaseEvents c6front0 c6front1).map Event.type
      = ["attack", "attacked", "damage", "attack", "attacked", "damage"] ∧
    (attackPhaseEvents c6front0 c6front1).map Event.source
      = [none, none, none, none, none, none] := by
  refine ⟨by decide, by decide, by decide⟩

/-- C6 (amended): the fronts are ordered by the initiative comparator
(attack desc, health desc, id tiebreak); for each front in that order the
phase emits exactly three events — `attack` targeting the attacker,
`attacked` targeting position 0 of the opposing team, and `damage`
targeting the opposing front at the time of computation with payload
`damage = attacker.attack` and no source; `standard_damage_callback` then
subtracts the damage and, on reaching health ≤ 0, emits `death` (target =
self, source = the damage source) and `killed` targeting the source. -/
theorem c6_attack_phase_amended (f0 f1 : Boi) (h0 : f0.team = 0) (h1 : f1.team = 1)
    (b : Boi) (dmg : Int) (src : Nat) :
    (attackPhaseEvents f0 f1 =
        if boiLt f1 f0 then attackEventsFor f1 f0 ++ attackEventsFor f0 f1
        else attackEventsFor f0 f1 ++ attackEventsFor f1 f0) ∧
    (attackEventsFor f0 f1 =
        [ { Event.base "attack" with target_pos := some (0, f0.team_pos) },
          { Event.base "attacked" with target_pos := some (1, 0) },
          { Event.base "damage" with
              target_pos := some (1, f1.team_pos),
              damage := some f0.attack } ]) ∧
    (attackEventsFor f1 f0 =
        [ { Event.base "attack" with target_pos := some (1, f1.team_pos) },
          { Event.base "attacked" with target_pos := some (0, 0) },
          { Event.base "damage" with
              target_pos := some (0, f0.team_pos),
              damage := some f1.attack } ]) ∧
    ((standard_damage_callback b dmg src).1 = { b with health := b.health - dmg }) ∧
    (b.health - dmg ≤ 0 → (standard_damage_callback b dmg src).2 =
        [ { Event.base "death" with target := some b.id, source := some src },
          { Event.base "killed" with target := some src, source := some b.id } ]) ∧
    (0 < b.health - dmg → (standard_damage_callback b dmg src).2 = []) := by
  refine ⟨?_, ?_, ?_, ?_, ?_, ?_⟩
  case refine_4 =>
    by_cases h : b.health - dmg ≤ 0 <;> simp [standard_damage_callback, h]
  · simp only [attackPhaseEvents, sortedPair]
    by_cases hlt : boiLt f1 f0 = true
    · simp [hlt, h0, h1]
    · simp only [Bool.not_eq_true] at hlt
      simp [hlt, h0, h1]
  · simp [attackEventsFor, h0, h1]
  · simp [attackEventsFor, h0, h1]
  · intro h
    simp [standard_damage_callback, h]
  · intro h
    simp only [standard_damage_callback]
    rw [if_neg (by omega)]

/-- Witness for C6's amended statement, at the spec's simple-battle
fronts: front A (atk 2, hp 1) acts first and its damage event carries
damage 2 onto team 1's front;  a 2-damage hit on front B (hp 2) kills it
and emits `death` and `killed`. -/
theorem c6_attack_phase_witness :
    attackPhaseEvents c6front0 c6front1 =
      attackEventsFor c6front0 c6front1 ++ attackEventsFor c6front1 c6front0 ∧
    (standard_damage_callback c6front1 2 10).2 =
      [ { Event.base "death" with target := some 20, source := some 10 },
        { Event.base "killed" with target := some 10, source := some 20 } ] := by
  have h := c6_attack_phase_amended c6front0 c6front1 rfl rfl c6front1 2 10
  refine ⟨?_, ?_⟩
  · rw [h.1]
    decide
  · exact h.2.2.2.2.1 (by decide)

/-! ## Claim C9 — swap -/

theorem idxOfBoi_lt {l : List Boi} {i : Nat} (h : containsBoi l i = true) :
    idxOfBoi l i < l.length := by
  apply List.findIdx_lt_length_of_exists
  rw [containsBoi_iff] at h
  obtain ⟨x, hx, hid⟩ := h
  exact ⟨x, hx, by simp [hid]⟩

theorem id_at_idxOfBoi {l : List Boi} {i : Nat} (h : containsBoi l i = true) :
    (l.getD (idxOfBoi l i) defaultBoi).id = i := by
  have hlt := idxOfBoi_lt h
  simp only [idxOfBoi] at hlt ⊢
  rw [List.getD_eq_getElem?_getD, List.getElem?_eq_getElem hlt]
  simpa using @List.findIdx_getElem _ (fun b => b.id == i) l hlt

theorem id_inj_of_nodup {l : List Boi} (hnd : (l.map Boi.id).Nodup)
    {i j : Nat} (hi : i < l.length) (hj : j < l.length)
    (h : (l.get ⟨i, hi⟩).id = (l.get ⟨j, hj⟩).id) : i = j := by
  have hi2 : i < (l.map Boi.id).length := by simpa using hi
  have hj2 : j < (l.map Boi.id).length := by simpa using hj
  have h2 : (l.map Boi.id).get ⟨i, hi2⟩ = (l.map Boi.id).get ⟨j, hj2⟩ := by
    rw [List.get_eq_getElem, List.get_eq_getElem, List.getElem_map, List.getElem_map]
    exact h
  exact hnd.getElem_inj_iff.mp h2

/-- C9: a valid swap of two distinct team members succeeds, leaves money,
offer lists, frozen lists and the queue unchanged, exchanges exactly the
two members' positions leaving every other position untouched, and a
second identical swap restores the team order exactly. -/
theorem c9_swap_spec (s : ShopState) (b1 b2 : Nat)
    (hnd : (s.team.map Boi.id).Nodup)
    (h1 : containsBoi s.team b1 = true) (h2 : containsBoi s.team b2 = true)
    (hne : b1 ≠ b2) :
    (swap_boi_op s (some b1) (some b2)).2 = none ∧
    (swap_boi_op s (some b1) (some b2)).1.money = s.money ∧
    (swap_boi_op s (some b1) (some b2)).1.shop_bois = s.shop_bois ∧
    (swap_boi_op s (some b1) (some b2)).1.shop_items = s.shop_items ∧
    (swap_boi_op s (some b1) (some b2)).1.frozen_bois = s.frozen_bois ∧
    (swap_boi_op s (some b1) (some b2)).1.frozen_items = s.frozen_items ∧
    (swap_boi_op s (some b1) (some b2)).1.queue = s.queue ∧
    (swap_boi_op s (some b1) (some b2)).1.team.length = s.team.length ∧
    (swap_boi_op s (some b1) (some b2)).1.team[idxOfBoi s.team b1]?
        = s.team[idxOfBoi s.team b2]? ∧
    (swap_boi_op s (some b1) (some b2)).1.team[idxOfBoi s.team b2]?
        = s.team[idxOfBoi s.team b1]? ∧
    (∀ k, k ≠ idxOfBoi s.team b1 → k ≠ idxOfBoi s.team b2 →
        (swap_boi_op s (some b1) (some b2)).1.team[k]? = s.team[k]?) ∧
    (swap_boi_op (swap_boi_op s (some b1) (some b2)).1 (some b1) (some b2)).1.team
        = s.team := by
  have hi1 := idxOfBoi_lt h1
  have hi2 := idxOfBoi_lt h2
  have hx : (s.team.getD (idxOfBoi s.team b1) defaultBoi).id = b1 := id_at_idxOfBoi h1
  have hy : (s.team.getD (idxOfBoi s.team b2) defaultBoi).id = b2 := id_at_idxOfBoi h2
  have hii : idxOfBoi s.team b1 ≠ idxOfBoi s.team b2 := by
    intro h
    rw [h] at hx
    exact hne (hx.symm.trans hy)
  have hvalid : valid_swap_boi s b1 b2 = true := by
    simp [valid_swap_boi, h1, h2, hne]
  have hop : swap_boi_op s (some b1) (some b2) = ({ s with team := List.set (List.set s.team (idxOfBoi s.team b1) (s.team.getD (idxOfBoi s.team b2) defaultBoi)) (idxOfBoi s.team b2) (s.team.getD (idxOfBoi s.team b1) defaultBoi) }, none) := by
    simp [swap_boi_op, hvalid]
  rw [hop]
  set i1 := idxOfBoi s.team b1 with hdefi1
  set i2 := idxOfBoi s.team b2 with hdefi2
  set X := s.team.getD i1 defaultBoi with hdefX
  set Y := s.team.getD i2 defaultBoi with hdefY
  set T := (s.team.set i1 Y).set i2 X with hdefT
  have hTlen : T.length = s.team.length := by
    simp [hdefT]
  have hT1 : T[i1]? = some Y := by
    rw [hdefT, List.getElem?_set_ne (Ne.symm hii), List.getElem?_set_eq (by simpa using hi1)]
  have hT2 : T[i2]? = some X := by
    rw [hdefT, List.getElem?_set_eq (by simpa using hi2)]
  have hTk : ∀ k, k ≠ i1 → k ≠ i2 → T[k]? = s.team[k]? := by
    intro k hk1 hk2
    rw [hdefT, List.getElem?_set_ne (Ne.symm hk2), List.getElem?_set_ne (Ne.symm hk1)]
  have hgd1 : s.team[i1]? = some X := by
    rw [hdefX, List.getD_eq_getElem?_getD, List.getElem?_eq_getElem hi1]
    simp
  have hgd2 : s.team[i2]? = some Y := by
    rw [hdefY, List.getD_eq_getElem?_getD, List.getElem?_eq_getElem hi2]
    simp
  have hi1T : i1 < T.length := by rw [hTlen]; exact hi1
  have hi2T : i2 < T.length := by rw [hTlen]; exact hi2
  have hTget1 : T.get ⟨i1, hi1T⟩ = Y := by
    have h5 := hT1
    rw [List.getElem?_eq_getElem hi1T] at h5
    simpa using h5
  have hTget2 : T.get ⟨i2, hi2T⟩ = X := by
    have h5 := hT2
    rw [List.getElem?_eq_getElem hi2T] at h5
    simpa using h5
  have hTother : ∀ k (hk : k < T.length), k ≠ i1 → k ≠ i2 →
      T.get ⟨k, hk⟩ = s.team.get ⟨k, by rw [← hTlen]; exact hk⟩ := by
    intro k hk hk1 hk2
    have hks : k < s.team.length := by rw [← hTlen]; exact hk
    have h5 := hTk k hk1 hk2
    rw [List.getElem?_eq_getElem hk, List.getElem?_eq_getElem hks] at h5
    simpa using h5
  have hXmem : X ∈ T := by
    rw [← hTget2]
    exact List.get_mem T i2 hi2T
  have hYmem : Y ∈ T := by
    rw [← hTget1]
    exact List.get_mem T i1 hi1T
  have hcT1 : containsBoi T b1 = true := containsBoi_iff.mpr ⟨X, hXmem, hx⟩
  have hcT2 : containsBoi T b2 = true := containsBoi_iff.mpr ⟨Y, hYmem, hy⟩
  have hsid : ∀ k (hk : k < s.team.length), (s.team.get ⟨k, hk⟩).id = b1 → k = i1 := by
    intro k hk hid
    have hxg : (s.team.get ⟨i1, hi1⟩).id = b1 := by
      have := hgd1
      rw [List.getElem?_eq_getElem hi1] at this
      have hX : s.team.get ⟨i1, hi1⟩ = X := by simpa using this
      rw [hX]
      exact hx
    exact id_inj_of_nodup hnd hk hi1 (hid.trans hxg.symm)
  have hsid2 : ∀ k (hk : k < s.team.length), (s.team.get ⟨k, hk⟩).id = b2 → k = i2 := by
    intro k hk hid
    have hyg : (s.team.get ⟨i2, hi2⟩).id = b2 := by
      have := hgd2
      rw [List.getElem?_eq_getElem hi2] at this
      have hY : s.team.get ⟨i2, hi2⟩ = Y := by simpa using this
      rw [hY]
      exact hy
    exact id_inj_of_nodup hnd hk hi2 (hid.trans hyg.symm)
  have hidxT1 : idxOfBoi T b1 = i2 := by
    simp only [idxOfBoi]
    rw [List.findIdx_eq hi2T]
    constructor
    · show ((T.get ⟨i2, hi2T⟩).id == b1) = true
      rw [hTget2]
      simp [hx]
    · intro j hj
      have hjT : j < T.length := lt_trans hj hi2T
      have hjs : j < s.team.length := by rw [← hTlen]; exact hjT
      by_cases hji : j = i1
      · subst hji
        show ((T.get ⟨i1, hi1T⟩).id == b1) = false
        rw [hTget1]
        simp only [beq_eq_false_iff_ne, ne_eq, hy]
        exact fun h => hne h.symm
      · have hji2 : j ≠ i2 := Nat.ne_of_lt hj
        show ((T.get ⟨j, hjT⟩).id == b1) = false
        rw [hTother j hjT hji hji2]
        simp only [beq_eq_false_iff_ne, ne_eq]
        intro hcon
        exact hji (hsid j hjs hcon)
  have hidxT2 : idxOfBoi T b2 = i1 := by
    simp only [idxOfBoi]
    rw [List.findIdx_eq hi1T]
    constructor
    · show ((T.get ⟨i1, hi1T⟩).id == b2) = true
      rw [hTget1]
      simp [hy]
    · intro j hj
      have hjT : j < T.length := lt_trans hj hi1T
      have hjs : j < s.team.length := by rw [← hTlen]; exact hjT
      have hji1 : j ≠ i1 := Nat.ne_of_lt hj
      by_cases hji2 : j = i2
      · subst hji2
        show ((T.get ⟨i2, hi2T⟩).id == b2) = false
        rw [hTget2]
        simp only [beq_eq_false_iff_ne, ne_eq, hx]
        exact hne
      · show ((T.get ⟨j, hjT⟩).id == b2) = false
        rw [hTother j hjT hji1 hji2]
        simp only [beq_eq_false_iff_ne, ne_eq]
        intro hcon
        exact hji2 (hsid2 j hjs hcon)
  have hvalidT : valid_swap_boi { s with team := T } b1 b2 = true := by
    simp [valid_swap_boi, hcT1, hcT2, hne]
  have hTgd1 : T.getD (idxOfBoi T b1) defaultBoi = X := by
    rw [hidxT1, List.getD_eq_getElem?_getD, hT2]
    rfl
  have hTgd2 : T.getD (idxOfBoi T b2) defaultBoi = Y := by
    rw [hidxT2, List.getD_eq_getElem?_getD, hT1]
    rfl
  refine ⟨rfl, rfl, rfl, rfl, rfl, rfl, rfl, hTlen, by rw [hT1, hgd2], by rw [hT2, hgd1],
    hTk, ?_⟩
  simp only [swap_boi_op, hvalidT, if_pos]
  rw [hTgd1, hTgd2, hidxT1, hidxT2]
  apply List.ext_getElem?
  intro n
  by_cases hn1 : n = i1
  · subst hn1
    rw [List.getElem?_set_eq (by simpa using hi1T), hgd1]
  · rw [List.getElem?_set_ne (Ne.symm hn1)]
    by_cases hn2 : n = i2
    · subst hn2
      rw [List.getElem?_set_eq hi2T, hgd2]
    · rw [List.getElem?_set_ne (Ne.symm hn2)]
      exact hTk n hn1 hn2

/-- A two-member team for exercising swap. -/
def c9shop : ShopState :=
  { team := [⟨1, "p", 2, 1, 1, 0, none, 0, 0⟩, ⟨2, "q", 1, 2, 1, 0, none, 0, 0⟩],
    shop_bois := [], shop_items := [], frozen_bois := [], frozen_items := [],
    money := 10, queue := [], rng := [], next_id := 3,
    pack := ⟨[⟨[defaultTemplate], [], 3, 2⟩]⟩, tier := 1, roll_price := 1, boi_price := 3 }

/-- Witness for C9: both swaps succeed and the double swap restores the
two-member team exactly. -/
theorem c9_swap_witness :
    (swap_boi_op c9shop (some 1) (some 2)).2 = none ∧
    (swap_boi_op (swap_boi_op c9shop (some 1) (some 2)).1 (some 1) (some 2)).1.team
        = c9shop.team :=
  ⟨(c9_swap_spec c9shop 1 2 (by decide) (by decide) (by decide) (by decide)).1,
   (c9_swap_spec c9shop 1 2 (by decide) (by decide) (by decide)
      (by decide)).2.2.2.2.2.2.2.2.2.2.2⟩

/-! ## Claim C8 — the team-capacity invariant -/

theorem handle_target_team_length (s : ShopState) (ev : Event) :
    (handle_target s ev).1.team.length = s.team.length := by
  unfold handle_target
  split
  · split
    · simp [updateBoi_length]
    · rfl
  · rfl

theorem handle_death_team_le (s : ShopState) (ev : Event) :
    (handle_death s ev).team.length ≤ s.team.length := by
  unfold handle_death
  by_cases h : ev.type == "death"
  · rw [if_pos h]
    cases ev.target with
    | none => exact Nat.le_refl _
    | some i => simpa using removeFirstBoi_length_le s.team i
  · rw [if_neg h]

theorem buy_boi_op_team_le (s : ShopState) (b? : Option Nat)
    (h : s.team.length ≤ MAX_TEAM_SIZE) :
    (buy_boi_op s b?).1.team.length ≤ MAX_TEAM_SIZE := by
  cases b? with
  | none => exact h
  | some bid =>
      unfold buy_boi_op
      by_cases hv : valid_buy_boi s bid = true
      · have hlt : s.team.length < MAX_TEAM_SIZE := by
          simp only [valid_buy_boi, Bool.and_eq_true, decide_eq_true_eq] at hv
          exact hv.2
        simp only [hv, if_pos]
        simpa using hlt
      · simp only [Bool.not_eq_true] at hv
        simp [hv, h]

theorem sell_boi_op_team_le (s : ShopState) (b? : Option Nat) :
    (sell_boi_op s b?).1.team.length ≤ s.team.length := by
  cases b? with
  | none => exact Nat.le_refl _
  | some bid =>
      unfold sell_boi_op
      by_cases hv : valid_sell_boi s bid = true
      · simp only [hv, if_pos]
        simpa using removeFirstBoi_length_le s.team bid
      · simp only [Bool.not_eq_true] at hv
        simp [hv]

theorem buy_item_op_team_eq (s : ShopState) (it? : Option Item) (t? : Option Nat) :
    (buy_item_op s it? t?).1.team = s.team := by
  unfold buy_item_op
  split
  · split
    · rfl
    · rfl
  · rfl

theorem merge_boi_core_team_le (s : ShopState) (t src : Boi) :
    (merge_boi_core s t src).1.team.length ≤ s.team.length := by
  unfold merge_boi_core
  by_cases hv : valid_merge_boi s t src = true
  · simp only [hv, if_pos]
    split
    · refine Nat.le_trans (removeFirstBoi_length_le _ _) ?_
      rw [updateBoi_length]
    · simp [updateBoi_length]
  · simp only [Bool.not_eq_true] at hv
    simp [hv]

theorem merge_boi_op_team_le (s : ShopState) (t? s? : Option Nat) :
    (merge_boi_op s t? s?).1.team.length ≤ s.team.length := by
  unfold merge_boi_op
  split
  · split
    · exact merge_boi_core_team_le _ _ _
    · exact Nat.le_refl _
  · exact Nat.le_refl _

/-- When the joint validation of buy-and-merge passes, the inner merge's
own validation necessarily passes on the intermediate state (both objects
are on the team, and the types were compared by the joint validation). -/
theorem buy_and_merge_inner_valid (s : ShopState) (bought target : Boi)
    (hv : valid_buy_and_merge_boi s bought target = true) :
    valid_merge_boi { s with money := s.money - s.boi_price, shop_bois := removeFirstBoi s.shop_bois bought.id, team := s.team ++ [bought] } target bought = true := by
  simp only [valid_buy_and_merge_boi, Bool.and_eq_true] at hv
  simp only [valid_merge_boi, Bool.and_eq_true]
  refine ⟨⟨containsBoi_append_of hv.1.1.2, containsBoi_append_right⟩, ?_⟩
  have := hv.1.2
  simp only [beq_iff_eq] at this ⊢
  exact this.symm

theorem removeFirst_update_append_length (l : List Boi) (b nb : Boi) (tid : Nat)
    (hid : nb.id = tid) :
    (removeFirstBoi (updateBoi (l ++ [b]) tid nb) b.id).length = l.length := by
  have hc : containsBoi (updateBoi (l ++ [b]) tid nb) b.id = true := by
    rw [containsBoi_updateBoi hid]
    exact containsBoi_append_right
  have hlen := removeFirstBoi_length hc
  rw [updateBoi_length] at hlen
  simp only [List.length_append, List.length_cons, List.length_nil] at hlen
  omega

theorem swap_boi_op_team_length (s : ShopState) (b1? b2? : Option Nat) :
    (swap_boi_op s b1? b2?).1.team.length = s.team.length := by
  unfold swap_boi_op
  cases b1? with
  | none => cases b2? <;> rfl
  | some b1 =>
      cases b2? with
      | none => rfl
      | some b2 =>
          by_cases hv : valid_swap_boi s b1 b2 = true
          · simp [hv]
          · simp only [Bool.not_eq_true] at hv
            simp [hv]

theorem roll_op_team_eq (s : ShopState) : (roll_op s).1.team = s.team := by
  unfold roll_op
  by_cases hv : valid_roll s = true
  · simp [hv, free_roll]
  · simp only [Bool.not_eq_true] at hv
    simp [hv]

theorem toggle_freeze_boi_op_team_eq (s : ShopState) (b? : Option Nat) :
    (toggle_freeze_boi_op s b?).1.team = s.team := by
  unfold toggle_freeze_boi_op
  cases b? with
  | none => rfl
  | some bid =>
      by_cases hv : valid_toggle_freeze_boi s bid = true
      · by_cases hf : containsBoi s.frozen_bois bid = true
        · simp [hv, hf]
        · simp only [Bool.not_eq_true] at hf
          simp [hv, hf]
      · simp only [Bool.not_eq_true] at hv
        simp [hv]

theorem toggle_freeze_item_op_team_eq (s : ShopState) (it? : Option Item) :
    (toggle_freeze_item_op s it?).1.team = s.team := by
  unfold toggle_freeze_item_op
  cases it? with
  | none => rfl
  | some it =>
      by_cases hv : valid_toggle_freeze_item s it.id = true
      · by_cases hf : containsItem s.frozen_items it.id = true
        · simp [hv, hf]
        · simp only [Bool.not_eq_true] at hf
          simp [hv, hf]
      · simp only [Bool.not_eq_true] at hv
        simp [hv]

/-- Start state for the C8 trace: a full team of five level-1 "a"-type
bois, four cheap fillers and one more "a"-type boi offered, money 20. -/
def c8shop : ShopState :=
  { team := [⟨1, "a", 2, 2, 1, 0, none, 0, 0⟩, ⟨2, "a", 2, 2, 1, 0, none, 0, 0⟩,
             ⟨3, "a", 2, 2, 1, 0, none, 0, 0⟩, ⟨4, "a", 2, 2, 1, 0, none, 0, 0⟩,
             ⟨5, "a", 2, 2, 1, 0, none, 0, 0⟩],
    shop_bois := [⟨6, "b", 1, 1, 1, 0, none, 0, 0⟩, ⟨7, "b", 1, 1, 1, 0, none, 0, 0⟩,
                  ⟨8, "b", 1, 1, 1, 0, none, 0, 0⟩, ⟨9, "b", 1, 1, 1, 0, none, 0, 0⟩,
                  ⟨10, "a", 2, 2, 1, 0, none, 0, 0⟩],
    shop_items := [], frozen_bois := [], frozen_items := [], money := 20,
    queue := [], rng := [], next_id := 11,
    pack := ⟨[⟨[defaultTemplate], [], 3, 2⟩]⟩, tier := 1, roll_price := 1, boi_price := 3 }

/-- The C8 trace, shop intents only: three merges raise boi 1 to level 3
(the third one double-increments through the drained levelup event); boi 1
is then merged as the source into boi 5, whose 7-point gain emits two
levelup events whose drain leaves boi 5 at level 5; four buys refill the
team to five; the final buy-and-merge targets the level-5 boi. -/
def c8events : List Event :=
  [ { Event.base "merge_boi" with target_boi := some 1, source_boi := some 2 },
    { Event.base "merge_boi" with target_boi := some 1, source_boi := some 3 },
    { Event.base "merge_boi" with target_boi := some 1, source_boi := some 4 },
    { Event.base "merge_boi" with target_boi := some 5, source_boi := some 1 },
    { Event.base "buy_boi" with boi := some 6 },
    { Event.base "buy_boi" with boi := some 7 },
    { Event.base "buy_boi" with boi := some 8 },
    { Event.base "buy_boi" with boi := some 9 },
    { Event.base "buy_and_merge_boi" with bought := some 10, target := some 5 } ]

/-- C8 (code bug): starting from a five-member team (within capacity) and
using only the claim's listed operations, the team ends with SIX members.
The levelup double increment (the C3 bug) makes a level-5 boi reachable;
the final buy-and-merge passes its joint validation (which never checks
levels), debits the price and appends the bought boi (team = 6), and then
`_merge_boi` raises at `assert target_boi.level <= MAX_BOI_LEVEL`
(shop_system.py:296) BEFORE removing the source — the money stays debited
and the bought boi stays on the over-full team, violating the
`MAX_TEAM_SIZE` invariant and the "bought source is consumed in the same
operation" clause.  With the intended single-increment levelup semantics
levels stay at most 3, the assert can never fire, and the invariant holds. -/
theorem c8_assert_overflows_team :
    c8shop.team.length = 5 ∧
    (runShopEvents 10 c8shop c8events).team.length = 6 ∧
    containsBoi (runShopEvents 10 c8shop c8events).team 10 = true ∧
    (runShopEvents 10 c8shop c8events).money = 5 := by
  refine ⟨rfl, by decide, by decide, by decide⟩

end SAB
